import Mathlib

/-!
Verification development for the roycemorebot repository.

The embedding covers, from the source:
- `roycemorebot/constants.py`: the configuration document loading
  (`config.json` overriding `config-default.json`), the `JSONGetter`
  metaclass (`__getattr__`, `__getitem__`), and the `DEBUG_MODE` constant;
- `roycemorebot/__main__.py`: the extension load loop, `Bot.close`,
  the `reload` command and the `git-pull` command;
- `roycemorebot/exts/status.py`: its import list from the constants module.

Python exceptions are modelled by an explicit error type; functions that can
raise return `Except PyError _`.  Calls to `log.critical` made on the failure
path of `JSONGetter.__getattr__` are modelled as an explicit list of emitted
log messages, since one claim is about the diagnostic they carry.
-/

namespace Roycemorebot

/-- Python exceptions relevant to the embedded code.  `keyError` models
`KeyError` (raised both by dict indexing and by `os.environ[...]`),
`typeError` models the `TypeError` raised when indexing a non-dict JSON value
with a string key, `importError` models a failed `from ... import name`, and
`extensionNotLoaded` models `commands.ExtensionNotLoaded`. -/
inductive PyError where
  | keyError (key : String)
  | typeError
  | importError (name : String)
  | extensionNotLoaded (name : String)
deriving DecidableEq

/-- JSON values as produced by `json.load` in `constants.py`. -/
inductive Json where
  | null : Json
  | bool (b : Bool) : Json
  | num (n : Int) : Json
  | str (s : String) : Json
  | arr (xs : List Json) : Json
  | obj (kvs : List (String × Json)) : Json

/-- The Python comparison `item == "!ENV"` performed by
`JSONGetter.__getattr__`: true exactly when the value is the string
`"!ENV"`. -/
def Json.isEnvMarker : Json → Bool
  | .str s => s = "!ENV"
  | _ => false

/-- A process environment (`os.environ`): an association of variable names to
string values. -/
abbrev Env := List (String × String)

/-- Python `s.lower()`: every character lower-cased. -/
def pyLower (s : String) : String := ⟨s.data.map Char.toLower⟩

/-- Python `s.upper()`: every character upper-cased. -/
def pyUpper (s : String) : String := ⟨s.data.map Char.toUpper⟩

/-- Python `s.endswith(pat)`. -/
def strEndsWith (s pat : String) : Bool := pat.data.isSuffixOf s.data

/-- Python `s.startswith(pat)`. -/
def strStartsWith (s pat : String) : Bool := pat.data.isPrefixOf s.data

/-- Whether `pat` occurs as a contiguous sublist. -/
def containsSubList (pat : List Char) : List Char → Bool
  | [] => pat.isEmpty
  | a :: rest => pat.isPrefixOf (a :: rest) || containsSubList pat rest

/-- The Python substring test `pat in s`. -/
def strContains (s pat : String) : Bool := containsSubList pat.data s.data

/-- Python `d[k]` on a JSON value: succeeds on an object containing the key,
raises `KeyError` on an object lacking it, raises `TypeError` on any
non-object value (string indices on strings, ints, lists, etc.). -/
def Json.getEntry : Json → String → Except PyError Json
  | .obj kvs, k =>
      match kvs.lookup k with
      | some v => .ok v
      | none => .error (.keyError k)
  | _, _ => .error .typeError

/-- `os.environ[k]`: the value when the variable is set, `KeyError` otherwise.
Environment values are always strings, never `None`. -/
def envGet (env : Env) (k : String) : Except PyError String :=
  match List.lookup k env with
  | some v => .ok v
  | none => .error (.keyError k)

/-- A constants class using the `JSONGetter` metaclass: a `section` class
attribute and an optional `subsection` one (the metaclass default is `None`).
`section` is a Lean keyword, so the field is named `sec`. -/
structure ConstClass where
  sec : String
  subsection : Option String
deriving DecidableEq

/-- The document traversal of `JSONGetter.__getattr__`:
`_CONFIG_JSON[cls.section][cls.subsection][name]` when a subsection is set,
`_CONFIG_JSON[cls.section][name]` otherwise.  `name` is already lower-cased
by the caller. -/
def docLookup (doc : Json) (c : ConstClass) (name : String) : Except PyError Json :=
  match c.subsection with
  | some sub => do Json.getEntry (← Json.getEntry (← Json.getEntry doc c.sec) sub) name
  | none => do Json.getEntry (← Json.getEntry doc c.sec) name

/-- The body of the `try` block of `JSONGetter.__getattr__`: the document
traversal, then, when the stored item equals the marker `"!ENV"`, the
environment lookup of the upper-cased key. -/
def rawLookup (doc : Json) (env : Env) (c : ConstClass) (name : String) :
    Except PyError Json :=
  match docLookup doc c name with
  | .error e => .error e
  | .ok item =>
      if item.isEnvMarker then (envGet env (pyUpper name)).map Json.str
      else .ok item

/-- The dotted path built in the `except KeyError` branch of
`JSONGetter.__getattr__`. -/
def dottedPath (c : ConstClass) (name : String) : String :=
  match c.subsection with
  | some sub => c.sec ++ "." ++ sub ++ "." ++ name
  | none => c.sec ++ "." ++ name

/-- The `log.critical` message emitted in the `except KeyError` branch. -/
def criticalMsg (c : ConstClass) (name : String) : String :=
  "Tried accessing configuration variable at `" ++ dottedPath c name
    ++ "`, but it could not be found."

namespace JSONGetter

/-- `JSONGetter.__getattr__`: lower-cases the requested name, runs the lookup,
and on `KeyError` (only) logs the dotted-path critical message and re-raises
the same error.  A `TypeError` propagates uncaught, with no log.  Returns the
outcome together with the list of emitted critical log messages. -/
def getattr (doc : Json) (env : Env) (c : ConstClass) (name0 : String) :
    Except PyError Json × List String :=
  let name := pyLower name0
  match rawLookup doc env c name with
  | .ok v => (.ok v, [])
  | .error (.keyError k) => (.error (.keyError k), [criticalMsg c name])
  | .error e => (.error e, [])

/-- `JSONGetter.__getitem__`: delegates directly to `cls.__getattr__(name)`. -/
def getitem (doc : Json) (env : Env) (c : ConstClass) (name : String) :
    Except PyError Json × List String :=
  getattr doc env c name

end JSONGetter

/-- Full Python attribute access on a constants class.  `__getattr__` runs
only for names that ordinary attribute lookup does not find; many names are
found normally — the real class attributes `section` and `subsection` (the
latter a metaclass default), the standard class attributes such as
`__doc__`, `__module__`, `__qualname__`, `__annotations__`, `__dict__`, and
everything inherited through the metaclass (`mro`, `__iter__`, ...).  Which
names those are is open-ended, so the outcome of ordinary lookup is passed
in as `normal`: `some v` when ordinary lookup finds the name with value `v`,
`none` when it does not and `__getattr__` is consulted.  Configuration keys
exist only as annotations, which create no attribute, so ordinary lookup
never finds them. -/
def pyGetattrFull (normal : Option Json) (doc : Json) (env : Env)
    (c : ConstClass) (name : String) : Except PyError Json × List String :=
  match normal with
  | some v => (.ok v, [])
  | none => JSONGetter.getattr doc env c name

/-- The config-file selection at the top of `constants.py`: when
`config.json` exists its parsed document is used, otherwise
`config-default.json` is parsed and used.  No key-by-key merge happens. -/
def loadConfig (override : Option Json) (defaultDoc : Json) : Json :=
  match override with
  | some doc => doc
  | none => defaultDoc

/-- `DEBUG_MODE = True if os.environ["DEBUG"] is not None else False`:
`os.environ["DEBUG"]` raises `KeyError` when unset; when set it is a string,
never `None`, so the conditional always yields `True`. -/
def DEBUG_MODE (env : Env) : Except PyError Bool :=
  (envGet env "DEBUG").map (fun _ => true)

/-! ### Extension discovery and the startup load loop (`__main__.py`) -/

/-- The top-level names bound by `roycemorebot/constants.py` (imports,
module globals, classes and groups).  Notably there is no `Roles`: the staff
role class is named `StaffRoles`. -/
def constantsTopLevelNames : List String :=
  ["json", "logging", "os", "Path", "log", "JSONGetter", "DEBUG_MODE",
   "Bot", "Guild", "StaffRoles", "ClassRoles", "Channels", "Categories",
   "Emoji", "BOT_ADMINS", "MOD_ROLES", "CLASS_ROLES"]

/-- The names `roycemorebot/exts/status.py` imports from
`roycemorebot.constants`: `from roycemorebot.constants import Channels,
Emoji, Roles`. -/
def statusConstantsImports : List String :=
  ["Channels", "Emoji", "Roles"]

/-- Loading an extension imports its module, which runs its import
statements.  The only extension module shipped under `exts/` is `status`;
its `from roycemorebot.constants import ...` statement fails with
`ImportError` at the first requested name the constants module does not
define. -/
def loadExtension (name : String) : Except PyError Unit :=
  if name = "status" then
    match statusConstantsImports.find?
        (fun n => !(constantsTopLevelNames.contains n)) with
    | some missing => .error (.importError missing)
    | none => .ok ()
  else .ok ()

/-- The files of the shipped `roycemorebot/exts` directory. -/
def extsDirFiles : List String := ["status.py"]

/-- The discovery filter of the load loop: files ending in `.py` and not
starting with `_`, with the `.py` suffix stripped (`file[:-3]`). -/
def discoveredExtensions (files : List String) : List String :=
  (files.filter (fun f => strEndsWith f ".py" && !(strStartsWith f "_"))).map
    (fun f => f.dropRight 3)

/-- The module-level load loop of `__main__.py`: loads every discovered
extension in order, with no `try`/`except` around `load_extension`, so the
first failure propagates out of the loop (crashing module initialization)
and no later extension is loaded.  Returns the list of loaded names on
success. -/
def loadAllExtensions (files : List String) : Except PyError (List String) :=
  (discoveredExtensions files).foldlM
    (fun loaded name => (loadExtension name).map (fun _ => loaded ++ [name]))
    []

/-! ### `Bot.close` (`__main__.py`) -/

/-- The awaited calls made by `Bot.close`, in source order. -/
inductive CloseStep where
  | superClose
  | closeDbConnections
  | shutdownAsyncgens
  | sleepTwo
deriving DecidableEq

/-- Sequential `await` execution without exception handling: each step runs
only if every earlier step succeeded; a failing step ends the run with the
failure propagating.  Returns the steps that ran and whether the run
completed normally. -/
def runSteps : List (CloseStep × Bool) → List CloseStep × Bool
  | [] => ([], true)
  | (s, ok) :: rest =>
      if ok then
        let r := runSteps rest
        (s :: r.1, r.2)
      else ([s], false)

/-- `Bot.close`: `await super().close()` (the platform disconnect), then
`await Tortoise.close_connections()` (the storage close), then
`await ...shutdown_asyncgens()`, then `await asyncio.sleep(2)` — with no
`try`/`finally`, so an exception from the platform disconnect propagates
before the storage close is reached. -/
def botClose (superCloseRaises : Bool) : List CloseStep × Bool :=
  runSteps
    [(.superClose, !superCloseRaises), (.closeDbConnections, true),
     (.shutdownAsyncgens, true), (.sleepTwo, true)]

/-! ### The `reload` command (`__main__.py`) -/

/-- Modelled from the spec: the ExtensionRegistry reload operation.  The
registry implementation (driven by the repository through
`bot.reload_extension`) is not under src; per the spec, `reload(name)` on an
extension that is not Loaded fails with `ExtensionNotLoaded` and performs no
load, and on a Loaded one it reloads it, leaving the set of loaded
extensions unchanged. -/
def reloadExt (loaded : List String) (name : String) :
    Except PyError (List String) :=
  if name ∈ loaded then .ok loaded
  else .error (.extensionNotLoaded name)

/-- The qualified name the `reload` command passes to `reload_extension`:
the argument itself when it contains `"roycemorebot"`, otherwise
`"roycemorebot.exts."` prepended. -/
def reloadTarget (cog : String) : String :=
  if strContains cog "roycemorebot" then cog
  else "roycemorebot.exts." ++ cog

/-- The `reload` command body: tries the reload, catches only
`ExtensionNotLoaded` (answering with a could-not-find message and leaving
the loaded set untouched), and answers with a success message otherwise.
Any other exception propagates.  Returns the replies sent and the loaded
set afterwards. -/
def reloadCommand (loaded : List String) (cog : String) :
    Except PyError (List String × List String) :=
  match reloadExt loaded (reloadTarget cog) with
  | .ok newLoaded =>
      .ok (["Cog `" ++ cog ++ "` successfully reloaded!"], newLoaded)
  | .error (.extensionNotLoaded _) =>
      .ok (["Could not find the extension `" ++ cog ++ "`!"], loaded)
  | .error e => .error e

/-! ### The `git-pull` command (`__main__.py`) -/

/-- The timeout passed to `subprocess.run(["git", "pull"], ..., timeout=60)`. -/
def gitTimeoutSeconds : Nat := 60

/-- A single-quote character, used by the Python `str()` renderings below. -/
def sq : String := String.singleton (Char.ofNat 39)

/-- The rendering of the command list `["git", "pull"]` inside Python
exception messages. -/
def gitCmdRepr : String :=
  "[" ++ sq ++ "git" ++ sq ++ ", " ++ sq ++ "pull" ++ sq ++ "]"

/-- `str(e)` for `subprocess.TimeoutExpired` on this invocation:
the command plus the phrase naming the timeout bound. -/
def strOfTimeoutExpired : String :=
  "Command " ++ sq ++ gitCmdRepr ++ sq ++ " timed out after "
    ++ toString gitTimeoutSeconds ++ " seconds"

/-- `str(e)` for `subprocess.CalledProcessError` with a positive return
code, as raised by `check=True` on a failing command. -/
def strOfNonzeroExit (returncode : Nat) : String :=
  "Command " ++ sq ++ gitCmdRepr ++ sq ++ " returned non-zero exit status "
    ++ toString returncode ++ "."

/-- Outcomes of the `subprocess.run` call inside `git_pull`. -/
inductive GitOutcome where
  | success (stdout : String) (stderr : String)
  | timeout (stderr : Option String)
  | nonzeroExit (returncode : Nat) (stderr : Option String)
  | osError (msg : String)

/-- The error reply of `git_pull`: the warning emoji, the fixed text, and
`str(e)` inside a code block. -/
def errorReply (warningEmoji errStr : String) : String :=
  warningEmoji ++ " There was an error trying to execute that command:\n```\n"
    ++ errStr ++ "\n```"

/-- The output reply of `git_pull` for captured stdout/stderr. -/
def outputReply (out : String) : String :=
  "Command output:\n```\n" ++ out ++ "\n```"

/-- Python truthiness of a possibly-absent captured stream: an empty or
absent string is falsy. -/
def truthyStream : Option String → Option String
  | some s => if s = "" then none else some s
  | none => none

/-- The replies `git_pull` sends for each outcome.  On success: the
green-check message, then the stdout if non-empty.  On `TimeoutExpired` or
`CalledProcessError`: the error reply embedding `str(e)`, then the captured
stderr if truthy.  On `OSError`: only the error reply; the handler then
evaluates `e.stderr` for a trace log, which an `OSError` does not have, so
no further reply is sent. -/
def gitPullMessages (warningEmoji greenCheck : String) :
    GitOutcome → List String
  | .success out _ =>
      (greenCheck ++ " Command executed successfully.") ::
        (if out = "" then [] else [outputReply out])
  | .timeout stderr =>
      errorReply warningEmoji strOfTimeoutExpired ::
        (match truthyStream stderr with
         | some s => [outputReply s]
         | none => [])
  | .nonzeroExit rc stderr =>
      errorReply warningEmoji (strOfNonzeroExit rc) ::
        (match truthyStream stderr with
         | some s => [outputReply s]
         | none => [])
  | .osError msg =>
      [errorReply warningEmoji msg]

/-! ## Theorems -/

/-- C1: for every configuration key whose stored value equals the
environment-override marker `"!ENV"`, when the environment variable named by
the upper-cased key is set, resolution returns that variable's value (with
no diagnostic logged), not the marker. -/
theorem resolve_env_override (doc : Json) (env : Env) (c : ConstClass)
    (name v : String)
    (hdoc : docLookup doc c (pyLower name) = .ok (.str "!ENV"))
    (henv : List.lookup (pyUpper (pyLower name)) env = some v) :
    JSONGetter.getattr doc env c name = (.ok (.str v), []) := by
  simp [JSONGetter.getattr, rawLookup, envGet, Except.map, hdoc, henv,
    Json.isEnvMarker]

/-- C1 witness: the concrete scenario of the claim — document
`{"bot": {"prefix": "!", "bot_token": "!ENV"}}`, environment
`BOT_TOKEN=abc123`, resolving `(bot, bot_token)` yields `"abc123"`. -/
theorem resolve_env_override_witness :
    JSONGetter.getattr
      (Json.obj [("bot",
        Json.obj [("prefix", Json.str "!"), ("bot_token", Json.str "!ENV")])])
      [("BOT_TOKEN", "abc123")] ⟨"bot", none⟩ "bot_token"
      = (.ok (.str "abc123"), []) :=
  resolve_env_override _ _ _ _ _ (by rfl) (by rfl)

/-- C2 counterexample: with document `{"bot": "x"}` the path
`(bot, prefix)` is absent (its lookup fails), yet resolution raises a
`TypeError` (string indexing), not a `KeyError`, and no critical log naming
the dotted path is emitted — so resolution does not always fail with a
missing-key error identifying the path. -/
theorem missing_path_not_keyerror_cx :
    docLookup (Json.obj [("bot", Json.str "x")]) ⟨"bot", none⟩ "prefix"
      = .error .typeError ∧
    JSONGetter.getattr (Json.obj [("bot", Json.str "x")]) [] ⟨"bot", none⟩
      "prefix" = (.error .typeError, []) :=
  ⟨rfl, rfl⟩

/-- C2 amended: for every path whose document traversal fails with a
`KeyError` (each traversed level is a mapping lacking the next component),
resolution re-raises that `KeyError` — whose payload is the first missing
component — and emits exactly one critical log identifying the full dotted
path of the request. -/
theorem missing_key_logs_dotted_path (doc : Json) (env : Env)
    (c : ConstClass) (name k : String)
    (h : docLookup doc c (pyLower name) = .error (.keyError k)) :
    JSONGetter.getattr doc env c name
      = (.error (.keyError k), [criticalMsg c (pyLower name)]) ∧
    criticalMsg c (pyLower name)
      = "Tried accessing configuration variable at `"
          ++ dottedPath c (pyLower name) ++ "`, but it could not be found." := by
  refine ⟨?_, rfl⟩
  simp [JSONGetter.getattr, rawLookup, h]

/-- C2 amended witness: with document `{"bot": {"prefix": "!"}}`, resolving
`(bot, bot_token)` fails with `KeyError` on `bot_token` and logs the dotted
path `bot.bot_token`. -/
theorem missing_key_logs_dotted_path_witness :
    JSONGetter.getattr (Json.obj [("bot", Json.obj [("prefix", Json.str "!")])])
      [] ⟨"bot", none⟩ "bot_token"
      = (.error (.keyError "bot_token"),
         ["Tried accessing configuration variable at `bot.bot_token`, but it could not be found."]) := by
  have h := missing_key_logs_dotted_path
    (Json.obj [("bot", Json.obj [("prefix", Json.str "!")])]) []
    ⟨"bot", none⟩ "bot_token" "bot_token" (by rfl)
  exact h.1

/-- C3 counterexample: the failure for a marker-valued key whose environment
variable is absent is not distinct from the failure for an absent document
path.  With section `bot` and key `42`: under document
`{"bot": {"42": "!ENV"}}` and an empty environment the key is present with
the marker, yet resolution produces exactly the same outcome — the same
`KeyError "42"` and the same critical log — as under document
`{"bot": {}}`, where the path is absent. -/
theorem env_failure_not_distinct_cx :
    docLookup (Json.obj [("bot", Json.obj [("42", Json.str "!ENV")])])
      ⟨"bot", none⟩ "42" = .ok (.str "!ENV") ∧
    JSONGetter.getattr (Json.obj [("bot", Json.obj [("42", Json.str "!ENV")])])
      [] ⟨"bot", none⟩ "42"
      = (.error (.keyError "42"), [criticalMsg ⟨"bot", none⟩ "42"]) ∧
    JSONGetter.getattr (Json.obj [("bot", Json.obj [])]) [] ⟨"bot", none⟩ "42"
      = (.error (.keyError "42"), [criticalMsg ⟨"bot", none⟩ "42"]) :=
  ⟨rfl, rfl, rfl⟩

/-- C3 amended: when the stored value equals the marker and the environment
variable named by the upper-cased key is absent, resolution fails with a
`KeyError` carrying the upper-cased variable name — the same exception kind
raised for absent document paths, not a distinct one — and the handler even
logs the same missing-configuration-variable critical message. -/
theorem env_override_missing_var (doc : Json) (env : Env) (c : ConstClass)
    (name : String)
    (hdoc : docLookup doc c (pyLower name) = .ok (.str "!ENV"))
    (henv : List.lookup (pyUpper (pyLower name)) env = none) :
    JSONGetter.getattr doc env c name
      = (.error (.keyError (pyUpper (pyLower name))),
         [criticalMsg c (pyLower name)]) := by
  simp [JSONGetter.getattr, rawLookup, envGet, Except.map, hdoc, henv,
    Json.isEnvMarker]

/-- C3 amended witness: document `{"bot": {"bot_token": "!ENV"}}` and an
empty environment — resolving `(bot, bot_token)` fails with
`KeyError "BOT_TOKEN"` and logs the dotted-path critical message. -/
theorem env_override_missing_var_witness :
    JSONGetter.getattr
      (Json.obj [("bot", Json.obj [("bot_token", Json.str "!ENV")])])
      [] ⟨"bot", none⟩ "bot_token"
      = (.error (.keyError "BOT_TOKEN"),
         [criticalMsg ⟨"bot", none⟩ "bot_token"]) :=
  env_override_missing_var _ _ _ _ (by rfl) (by rfl)

/-- C4: configuration loading selects exactly one source document — when the
override file exists its document is used wholesale, and every resolution
over the loaded document is independent of the default document, so no
default value is ever visible and no key-by-key merge happens. -/
theorem override_replaces_default (o d : Json) (env : Env) (c : ConstClass)
    (name : String) :
    loadConfig (some o) d = o ∧
    JSONGetter.getattr (loadConfig (some o) d) env c name
      = JSONGetter.getattr o env c name :=
  ⟨rfl, rfl⟩

/-- C5: evaluating the startup load loop on the shipped `exts` directory.
Discovery finds the `status` extension, whose load fails (its import of
`Roles` from the constants module, which defines no such name), and —
because the loop has no per-extension exception handling — the failure
propagates out of the loop instead of being logged and skipped, so startup
crashes and nothing is loaded. -/
theorem startup_crashes_on_status_import :
    discoveredExtensions extsDirFiles = ["status"] ∧
    constantsTopLevelNames.contains "Roles" = false ∧
    loadAllExtensions extsDirFiles = .error (.importError "Roles") :=
  ⟨rfl, rfl, rfl⟩

/-- C6: evaluating `Bot.close` when the platform disconnect raises.  The
storage close (`Tortoise.close_connections`) is never reached — cleanup is
short-circuited — whereas a non-failing disconnect is followed by the
storage close and the grace-period steps. -/
theorem close_skips_storage_on_disconnect_failure :
    botClose true = ([CloseStep.superClose], false) ∧
    CloseStep.closeDbConnections ∉ (botClose true).1 ∧
    botClose false = ([CloseStep.superClose, CloseStep.closeDbConnections,
      CloseStep.shutdownAsyncgens, CloseStep.sleepTwo], true) :=
  ⟨rfl, by decide, rfl⟩

/-- C7: evaluating `DEBUG_MODE` over the process environment.  When `DEBUG`
is absent the initializer raises `KeyError` (it does not evaluate to
`false`), and when `DEBUG` is set — even to the empty string — the flag is
`true`. -/
theorem debug_mode_crashes_when_unset :
    DEBUG_MODE [] = .error (.keyError "DEBUG") ∧
    DEBUG_MODE [("DEBUG", "")] = .ok true :=
  ⟨rfl, rfl⟩

/-- C8: the `git-pull` command bounds the external command by a 60-second
timeout, and when the command exceeds it the first reply the operator
receives embeds the `TimeoutExpired` rendering — a message that names the
60-second timeout and differs from the rendering of a generic nonzero-exit
failure. -/
theorem git_pull_timeout_reply (warningEmoji greenCheck : String)
    (stderr : Option String) :
    gitTimeoutSeconds = 60 ∧
    (gitPullMessages warningEmoji greenCheck (.timeout stderr)).head?
      = some (errorReply warningEmoji strOfTimeoutExpired) ∧
    (∃ pre post,
      strOfTimeoutExpired = pre ++ "timed out after 60 seconds" ++ post) ∧
    strOfTimeoutExpired ≠ strOfNonzeroExit 1 := by
  refine ⟨rfl, rfl, ⟨"Command " ++ sq ++ gitCmdRepr ++ sq ++ " ", "", ?_⟩, ?_⟩
  · rfl
  · decide

/-- C9: invoking the `reload` command on an extension that is not loaded
answers with the could-not-find reply, leaves the loaded set unchanged (no
load is performed), and returns normally — the `ExtensionNotLoaded` failure
is caught at the command boundary instead of crashing the process. -/
theorem reload_unloaded_fails_cleanly (loaded : List String) (cog : String)
    (h : reloadTarget cog ∉ loaded) :
    reloadCommand loaded cog
      = .ok (["Could not find the extension `" ++ cog ++ "`!"], loaded) := by
  simp [reloadCommand, reloadExt, h]

/-- C9 witness: reloading `status` while nothing is loaded answers with the
could-not-find reply and loads nothing. -/
theorem reload_unloaded_fails_cleanly_witness :
    reloadCommand [] "status"
      = .ok (["Could not find the extension `" ++ "status" ++ "`!"], []) :=
  reload_unloaded_fails_cleanly [] "status" (by decide)

/-- C10 counterexample: item-style and attribute-style access are not
equivalent for every name.  On the class with section `bot` (source class
`Bot`), ordinary attribute lookup finds the real class attribute `section`
with value `"bot"` and the inherited class attribute `__doc__` with the
docstring `"Bot specific attributes."`, while item access always routes
through `__getattr__`, which resolves against the document and fails with
a `KeyError` for both names. -/
theorem item_attr_differ_on_section_cx :
    pyGetattrFull (some (Json.str "bot"))
      (Json.obj [("bot", Json.obj [("prefix", Json.str "!")])])
      [] ⟨"bot", none⟩ "section" = (.ok (.str "bot"), []) ∧
    JSONGetter.getitem (Json.obj [("bot", Json.obj [("prefix", Json.str "!")])])
      [] ⟨"bot", none⟩ "section"
      = (.error (.keyError "section"), [criticalMsg ⟨"bot", none⟩ "section"]) ∧
    pyGetattrFull (some (Json.str "bot"))
      (Json.obj [("bot", Json.obj [("prefix", Json.str "!")])])
      [] ⟨"bot", none⟩ "section"
      ≠ JSONGetter.getitem
          (Json.obj [("bot", Json.obj [("prefix", Json.str "!")])])
          [] ⟨"bot", none⟩ "section" ∧
    pyGetattrFull (some (Json.str "Bot specific attributes."))
      (Json.obj [("bot", Json.obj [("prefix", Json.str "!")])])
      [] ⟨"bot", none⟩ "__doc__"
      = (.ok (.str "Bot specific attributes."), []) ∧
    JSONGetter.getitem (Json.obj [("bot", Json.obj [("prefix", Json.str "!")])])
      [] ⟨"bot", none⟩ "__doc__"
      = (.error (.keyError "__doc__"), [criticalMsg ⟨"bot", none⟩ "__doc__"]) :=
  ⟨rfl, rfl, fun h => Except.noConfusion (congrArg Prod.fst h), rfl, rfl⟩

/-- C10 amended: item-style access always routes through `__getattr__`, and
attribute-style access agrees with it exactly for the names ordinary
attribute lookup does not find on the class — configuration keys are such
names, since annotations create no attribute, while real class and
metaclass attributes (`section`, `subsection`, `__doc__`, `mro`, ...) are
not; on those names the two accesses resolve identically and depend only on
the lower-cased requested key. -/
theorem item_attr_access_agree (normal : Option Json) (doc : Json)
    (env : Env) (c : ConstClass) (name name2 : String)
    (hn : normal = none)
    (hl : pyLower name = pyLower name2) :
    pyGetattrFull normal doc env c name = JSONGetter.getitem doc env c name ∧
    JSONGetter.getitem doc env c name = JSONGetter.getitem doc env c name2 := by
  subst hn
  exact ⟨rfl, by simp [JSONGetter.getitem, JSONGetter.getattr, hl]⟩

/-- C10 amended witness: `bot_token` exists only as an annotation, so
ordinary lookup does not find it; on the scenario document, item access and
attribute access of it agree, and the upper-cased spelling `BOT_TOKEN`
resolves identically to `bot_token`. -/
theorem item_attr_access_agree_witness :
    (pyGetattrFull none
        (Json.obj [("bot",
          Json.obj [("prefix", Json.str "!"), ("bot_token", Json.str "!ENV")])])
        [("BOT_TOKEN", "abc123")] ⟨"bot", none⟩ "BOT_TOKEN"
      = JSONGetter.getitem
        (Json.obj [("bot",
          Json.obj [("prefix", Json.str "!"), ("bot_token", Json.str "!ENV")])])
        [("BOT_TOKEN", "abc123")] ⟨"bot", none⟩ "BOT_TOKEN") ∧
    JSONGetter.getitem
        (Json.obj [("bot",
          Json.obj [("prefix", Json.str "!"), ("bot_token", Json.str "!ENV")])])
        [("BOT_TOKEN", "abc123")] ⟨"bot", none⟩ "BOT_TOKEN"
      = JSONGetter.getitem
        (Json.obj [("bot",
          Json.obj [("prefix", Json.str "!"), ("bot_token", Json.str "!ENV")])])
        [("BOT_TOKEN", "abc123")] ⟨"bot", none⟩ "bot_token" :=
  item_attr_access_agree none _ _ _ _ _ (by rfl) (by rfl)

end Roycemorebot
